import Mathlib

/-!
Verification of the Blynk protocol engine of `BlinkLibPatched.py`
(classes `EventEmitter`, `BlynkProtocol`, `Blynk`).

Shallow embedding conventions:
* Bytes are `Nat` values (< 256 in every run the theorems talk about); a
  byte string is a `List Nat`.
* Python strings that travel through the protocol are represented by their
  UTF-8 byte encodings (`List Nat`); `str.encode('utf8')`/`bytes.decode('utf8')`
  is a bijection between strings and valid UTF-8 byte strings, so no
  information is lost.  `bytes.decode('utf8')` raising `UnicodeDecodeError`
  on invalid input is modelled explicitly via `utf8Valid`.
* Timestamps (`gettime()`, milliseconds) are `Int`; Python's floor division
  `//` is `Int.fdiv`.  Within one `process()` call the clock is frozen at the
  single value `now` (the code re-reads `gettime()` inside `_send`, at most
  milliseconds later).
* Mutation of `self` is explicit state passing over `PState`; `_write`,
  `conn.close()` and `print` are I/O and are modelled by recording the frame
  bytes sent / events emitted; an uncaught Python exception is an explicit
  `PErr` value in the result.
* `struct.pack("!BHH", cmd, mid, dlen)` is modelled by `pack_BHH`, which is
  faithful for `cmd ≤ 0xFF`, `mid ≤ 0xFFFF`, `dlen ≤ 0xFFFF` (outside those
  ranges CPython raises `struct.error`; the theorems carry the corresponding
  range hypotheses wherever such a pack could be reached).
-/

/-- Byte strings (Python `bytes`): lists of byte values. -/
abbrev Bytes := List Nat

/-- Command code `MSG_RSP` (line 21). -/
def MSG_RSP : Nat := 0

/-- Command code `MSG_LOGIN` (line 22). -/
def MSG_LOGIN : Nat := 2

/-- Command code `MSG_PING` (line 23). -/
def MSG_PING : Nat := 6

/-- Command code `MSG_HW` (line 24). -/
def MSG_HW : Nat := 20

/-- Command code `MSG_HW_LOGIN` (line 25). -/
def MSG_HW_LOGIN : Nat := 29

/-- Command code `MSG_EVENT_LOG` (line 26). -/
def MSG_EVENT_LOG : Nat := 64

/-- Command code `MSG_INTERNAL` (line 27). -/
def MSG_INTERNAL : Nat := 17

/-- Command code `MSG_REDIRECT` (line 31). -/
def MSG_REDIRECT : Nat := 41

/-- Status code `STA_SUCCESS` (line 33). -/
def STA_SUCCESS : Nat := 200

/-- Status code `STA_INVALID_TOKEN` (line 34). -/
def STA_INVALID_TOKEN : Nat := 9

/-- Connection state `DISCONNECTED` (line 36). -/
def DISCONNECTED : Nat := 0

/-- Connection state `CONNECTING` (line 37). -/
def CONNECTING : Nat := 1

/-- Connection state `CONNECTED` (line 38). -/
def CONNECTED : Nat := 2

/-- The UTF-8 encoding of the Python string `'vw'` (`v` = 118, `w` = 119). -/
def vwBytes : Bytes := [118, 119]

/-- Python `payload.split(b'\x00')` (line 116): split a byte string at every
NUL byte.  On the empty string it returns `[b'']`, i.e. `[[]]`; the result is
never the empty list. -/
def splitNul : Bytes → List Bytes
  | [] => [[]]
  | 0 :: r => [] :: splitNul r
  | b :: r =>
    match splitNul r with
    | h :: t => (b :: h) :: t
    | [] => [[b]]

/-- Python `b'\x00'.join fields` as produced by `'\0'.join(map(str, args))`
at line 82 (on the UTF-8 encodings of the argument strings). -/
def joinNul : List Bytes → Bytes
  | [] => []
  | [f] => f
  | f :: r => f ++ 0 :: joinNul r

/-- Model of `struct.pack("!BHH", cmd, mid, dlen)` (line 84): one command
byte followed by the message id and the payload length, each as two
big-endian bytes.  Faithful for `cmd ≤ 0xFF`, `mid ≤ 0xFFFF`,
`dlen ≤ 0xFFFF`; CPython raises `struct.error` outside those ranges. -/
def pack_BHH (cmd mid dlen : Nat) : Bytes :=
  [cmd, mid / 256, mid % 256, dlen / 256, dlen % 256]

/-- The byte string written by `_send(cmd, *args)` for `cmd ≠ MSG_RSP`
(lines 82-84): header plus the NUL-joined payload fields (fields given by
their UTF-8 encodings). -/
def sendBytes (cmd mid : Nat) (fields : List Bytes) : Bytes :=
  pack_BHH cmd mid (joinNul fields).length ++ joinNul fields

/-- The byte string written by `_send(MSG_RSP, status, id=mid)`
(lines 78-80, 84): a bare header whose length field carries the status and
no payload bytes. -/
def sendRspBytes (mid status : Nat) : Bytes :=
  pack_BHH MSG_RSP mid status

/-- The header/payload parse of `process()` (lines 110-116): with at least
5 buffered bytes, `struct.unpack("!BHH", bin[:5])` yields
`(cmd, mid, dlen)`; if fewer than `5 + dlen` bytes are buffered the frame is
not yet available (`none`, the `break` at line 113); otherwise the payload is
`bin[5:5+dlen]`, split at NUL bytes, and the remaining buffer is
`bin[5+dlen:]`. -/
def decodeFrame (bin : Bytes) : Option ((Nat × Nat × List Bytes) × Bytes) :=
  match bin with
  | c :: a :: b :: d :: e :: rest =>
    if rest.length < d * 256 + e then none
    else some ((c, a * 256 + b, splitNul (rest.take (d * 256 + e))),
               rest.drop (d * 256 + e))
  | _ => none

/-- Message-id counter step of `_send` (line 77):
`self.msg_id = mid + 1 if mid < 0xFFFF else 1`. -/
def nextMsgId (mid : Nat) : Nat :=
  if mid < 0xFFFF then mid + 1 else 1

/-- The message id issued by the k-th `send` after `connect()` (0-based):
`connect()` sets `msg_id = 1` (line 91) and each send issues the current
counter value and advances it by `nextMsgId` (lines 76-77). -/
def idSeq : Nat → Nat
  | 0 => 1
  | k + 1 => nextMsgId (idSeq k)

/-- A UTF-8 continuation byte, `0x80..0xBF`. -/
def isCont (b : Nat) : Bool := 0x80 ≤ b && b ≤ 0xBF

/-- Whether a byte string is a valid UTF-8 encoding, i.e. whether
`x.decode('utf8')` at line 116 succeeds rather than raising
`UnicodeDecodeError`.  This is the Unicode well-formed byte sequence table:
overlong encodings, surrogates and code points above U+10FFFF are
rejected. -/
def utf8Valid : Bytes → Bool
  | [] => true
  | b :: r =>
    if b ≤ 0x7F then utf8Valid r
    else if b < 0xC2 then false
    else if b ≤ 0xDF then
      match r with
      | b2 :: r2 => isCont b2 && utf8Valid r2
      | [] => false
    else if b ≤ 0xEF then
      match r with
      | b2 :: b3 :: r3 =>
        (if b = 0xE0 then decide (0xA0 ≤ b2 ∧ b2 ≤ 0xBF)
         else if b = 0xED then decide (0x80 ≤ b2 ∧ b2 ≤ 0x9F)
         else isCont b2) && isCont b3 && utf8Valid r3
      | _ => false
    else if b ≤ 0xF4 then
      match r with
      | b2 :: b3 :: b4 :: r4 =>
        (if b = 0xF0 then decide (0x90 ≤ b2 ∧ b2 ≤ 0xBF)
         else if b = 0xF4 then decide (0x80 ≤ b2 ∧ b2 ≤ 0x8F)
         else isCont b2) && isCont b3 && isCont b4 && utf8Valid r4
      | _ => false
    else false

/-- An ASCII decimal digit byte. -/
def isDigit (b : Nat) : Bool := 48 ≤ b && b ≤ 57

/-- An ASCII whitespace byte (the whitespace stripped by `int(str)`;
the embedding restricts to ASCII, CPython also strips Unicode spaces). -/
def isSpaceB (b : Nat) : Bool :=
  b = 32 || b = 9 || b = 10 || b = 11 || b = 12 || b = 13

/-- Digit-run parser for `int(str)`: ASCII digits with single underscores
allowed between digits. -/
def digitsVal : Nat → Bytes → Option Nat
  | acc, [] => some acc
  | acc, b :: r =>
    if isDigit b then digitsVal (acc * 10 + (b - 48)) r
    else if b = 95 then
      match r with
      | c :: r2 => if isDigit c then digitsVal (acc * 10 + (c - 48)) r2 else none
      | [] => none
    else none

/-- Nonempty digit run starting with a digit. -/
def digitsOf : Bytes → Option Nat
  | [] => none
  | c :: r => if isDigit c then digitsVal (c - 48) r else none

/-- Model of Python `int(s)` on the UTF-8 bytes of `s` (line 126):
optional surrounding whitespace, optional sign, a nonempty digit run;
`none` models the `ValueError` raised on anything else.  (Restricted to
ASCII digits; CPython additionally accepts Unicode decimal digits, which
never arise in this protocol.) -/
def pyInt (s : Bytes) : Option Int :=
  match ((s.dropWhile isSpaceB).reverse.dropWhile isSpaceB).reverse with
  | 43 :: r => (digitsOf r).map (fun n => (n : Int))
  | 45 :: r => (digitsOf r).map (fun n => -(n : Int))
  | r => (digitsOf r).map (fun n => (n : Int))

/-- The mutable protocol fields of `BlynkProtocol` that `process`/`_send`
touch: connection state, heartbeat interval in milliseconds
(`heartbeat*1000`, line 60), receive buffer `self.bin`, message-id counter,
and the three heartbeat timestamps (milliseconds). -/
structure PState where
  state : Nat
  heartbeat : Int
  bin : Bytes
  msg_id : Nat
  lastRecv : Int
  lastSend : Int
  lastPing : Int
deriving DecidableEq, Repr

/-- A frame handed to `_write` by `_send`, recorded structurally: the wire
bytes are `pack_BHH cmd mid dlen ++ data`. -/
structure SentMsg where
  cmd : Nat
  mid : Nat
  dlen : Nat
  data : Bytes
deriving DecidableEq, Repr

/-- The `emit` calls the protocol engine makes, one constructor per call
site: `disconnected` (line 99), `connected` (line 130), `invalid_auth`
(line 132), `emit("V"+args[1], args[2:])` and `emit("V*", args[1], args[2:])`
(lines 121-122), `emit("internal:"+args[0], args[1:])` (line 124),
`emit("redirect", args[0], int(args[1]))` (line 126).  Text arguments are
carried as UTF-8 bytes. -/
inductive Ev where
  | disconnected : Ev
  | connected : Ev
  | invalid_auth : Ev
  | vPin : Bytes → List Bytes → Ev
  | vStar : Bytes → List Bytes → Ev
  | internal : Bytes → List Bytes → Ev
  | redirect : Bytes → Int → Ev
deriving DecidableEq, Repr

/-- Uncaught Python exceptions that can escape `process()`:
`IndexError` from `args[1]` (lines 121, 126), `ValueError` from
`int(args[1])` (line 126), `UnicodeDecodeError` from `x.decode('utf8')`
(line 116). -/
inductive PErr where
  | indexError : PErr
  | valueError : PErr
  | unicodeError : PErr
deriving DecidableEq, Repr

/-- Result of one `process()` call: the state after the call, the frames
written (in order), the events emitted (in order), and the uncaught
exception if one was raised (field mutations performed before the raise are
already in `st`, as in Python). -/
structure PResult where
  st : PState
  sends : List SentMsg
  evs : List Ev
  err : Option PErr
deriving DecidableEq, Repr

/-- Routing of one decoded frame (the `if cmd == ...` chain, lines
117-134).  `args` is the NUL-split payload; the result is the updated
state, frames written, events emitted, and the exception if the branch
raises.  The `MSG_PING` reply is `_send(MSG_RSP, STA_SUCCESS, id=mid)`:
explicit id, so the counter is untouched, and `lastSend` is set (line 85).
The invalid-token branch calls `disconnect()` (line 134) which sets the
state and emits `disconnected` (lines 95-99) without returning from the
loop. -/
def routeFrame (now : Int) (st : PState) (cmd mid dlen : Nat)
    (args : List Bytes) : PState × List SentMsg × List Ev × Option PErr :=
  if cmd = MSG_PING then
    ({st with lastSend := now}, [⟨MSG_RSP, mid, STA_SUCCESS, []⟩], [], none)
  else if cmd = MSG_HW then
    match args with
    | a0 :: tl =>
      if a0 = vwBytes then
        match tl with
        | pin :: rest2 => (st, [], [.vPin pin rest2, .vStar pin rest2], none)
        | [] => (st, [], [], some .indexError)
      else (st, [], [], none)
    | [] => (st, [], [], some .indexError)
  else if cmd = MSG_INTERNAL then
    match args with
    | a0 :: tl => (st, [], [.internal a0 tl], none)
    | [] => (st, [], [], some .indexError)
  else if cmd = MSG_REDIRECT then
    match args with
    | a0 :: a1 :: _ =>
      match pyInt a1 with
      | some n => (st, [], [.redirect a0 n], none)
      | none => (st, [], [], some .valueError)
    | _ => (st, [], [], some .indexError)
  else if cmd = MSG_RSP ∧ st.state = CONNECTING then
    if dlen = STA_SUCCESS then
      ({st with state := CONNECTED}, [], [.connected], none)
    else if dlen = STA_INVALID_TOKEN then
      ({st with state := DISCONNECTED}, [], [.invalid_auth, .disconnected], none)
    else (st, [], [], none)
  else (st, [], [], none)

/-- The `while len(self.bin) >= 5` loop of `process()` (lines 110-134).
The `fuel` argument only bounds the iteration count for structural
recursion; each iteration consumes at least 5 buffered bytes, so starting
the loop with `fuel = bin.length` (as `process` does) never exhausts it.
A messageId of 0 disconnects immediately (`return self.disconnect()`,
line 112) before the payload-availability check; an incomplete frame breaks
out of the loop (line 113); otherwise the frame bytes are consumed
(line 115), the payload is NUL-split and UTF-8-checked (line 116) and the
frame is routed. -/
def procLoop (now : Int) : Nat → PState → List SentMsg → List Ev → PResult
  | 0, st, sends, evs => ⟨st, sends, evs, none⟩
  | fuel + 1, st, sends, evs =>
    match st.bin with
    | _ :: a :: b :: d :: e :: _ =>
      if a * 256 + b = 0 then
        ⟨{st with state := DISCONNECTED}, sends, evs ++ [.disconnected], none⟩
      else
        match decodeFrame st.bin with
        | none => ⟨st, sends, evs, none⟩
        | some ((cmd, mid, args), restBytes) =>
          if args.all utf8Valid then
            match routeFrame now {st with bin := restBytes} cmd mid
                (d * 256 + e) args with
            | (st1, s1, e1, none) =>
              procLoop now fuel st1 (sends ++ s1) (evs ++ e1)
            | (st1, s1, e1, some er) => ⟨st1, sends ++ s1, evs ++ e1, some er⟩
          else ⟨{st with bin := restBytes}, sends, evs, some .unicodeError⟩
    | _ => ⟨st, sends, evs, none⟩

/-- One call of `BlynkProtocol.process(data)` at time `now` (lines
101-134).  `data = []` models both `None` and `b''` (the `if data:` guard at
line 109 treats them alike).  The liveness check and the ping decision
(lines 104-108) precede buffering; `_send(MSG_PING)` issues the next counter
id with empty payload and sets `lastSend` and then `lastPing` to `now`. -/
def process (st : PState) (now : Int) (data : Bytes) : PResult :=
  if st.state = CONNECTING ∨ st.state = CONNECTED then
    if st.heartbeat + st.heartbeat.fdiv 2 < now - st.lastRecv then
      ⟨{st with state := DISCONNECTED}, [], [.disconnected], none⟩
    else
      let st1 : PState :=
        if st.heartbeat.fdiv 10 < now - st.lastPing ∧
            (st.heartbeat < now - st.lastSend ∨ st.heartbeat < now - st.lastRecv) then
          {st with msg_id := nextMsgId st.msg_id, lastSend := now, lastPing := now}
        else st
      let sends0 : List SentMsg :=
        if st.heartbeat.fdiv 10 < now - st.lastPing ∧
            (st.heartbeat < now - st.lastSend ∨ st.heartbeat < now - st.lastRecv) then
          [⟨MSG_PING, st.msg_id, 0, []⟩]
        else []
      let st2 : PState := if data = [] then st1 else {st1 with bin := st1.bin ++ data}
      procLoop now st2.bin.length st2 sends0 []
  else ⟨st, [], [], none⟩

/-- The callback registry of `EventEmitter` (`self._cbks`, line 42): a map
from event name to the single registered handler.  A handler takes the emit
arguments and either returns (`Except.ok`) or raises (`Except.error` with
the exception text). -/
def Registry := String → Option (List String → Except String Unit)

/-- Registration `on(evt, f)` (line 44): the last registration for a name
wins. -/
def onReg (cbks : Registry) (evt : String)
    (f : List String → Except String Unit) : Registry :=
  fun e => if e = evt then some f else cbks e

/-- What a call to `EventEmitter.emit` did: no handler was registered, the
handler returned normally, or the handler raised and the exception was
caught (and logged) by the `try`/`except` at lines 52-55. -/
inductive EmitOutcome where
  | noHandler : EmitOutcome
  | handlerOk : EmitOutcome
  | handlerCaught : String → EmitOutcome
deriving DecidableEq, Repr

/-- Model of `EventEmitter.emit(evt, *a)` (lines 50-55): look up the
handler, invoke it, catch anything it raises.  The function is total —
`emit` itself never raises. -/
def emit (cbks : Registry) (evt : String) (a : List String) : EmitOutcome :=
  match cbks evt with
  | none => .noHandler
  | some f =>
    match f a with
    | .ok _ => .handlerOk
    | .error e => .handlerCaught e

/-- Backoff step of `Blynk.connect` (line 171):
`self.backoff = min(self.backoff*2, 30)`. -/
def backoffStep (b : Nat) : Nat := min (b * 2) 30

/-- The `while True` retry loop of `Blynk.connect` (lines 152-171), run
against a prescribed list of attempt outcomes (`true` = the socket/TLS
setup and login succeed, `false` = some step raises).  Returns the sleep
durations taken (one per failed attempt, each equal to the backoff value at
that attempt, line 170), the final backoff counter, and whether the loop
returned (it only returns on a success, after resetting the counter to 1,
lines 164-165).  An empty outcome list models an observation of the loop
still running. -/
def connectLoop (b : Nat) : List Bool → List Nat × Nat × Bool
  | [] => ([], b, false)
  | o :: rest =>
    if o then ([], 1, true)
    else
      match connectLoop (backoffStep b) rest with
      | (sleeps, b1, done) => (b :: sleeps, b1, done)

/-- Predicate picking out ping frames among the frames written. -/
def isPingMsg (s : SentMsg) : Bool := decide (s.cmd = MSG_PING)

/-- A freshly connected engine (heartbeat 50 s, empty buffer, counter 1,
all heartbeat timestamps 0), still in `CONNECTING`. -/
def connState : PState := ⟨CONNECTING, 50000, [], 1, 0, 0, 0⟩

/-- The same engine once `CONNECTED`. -/
def liveState : PState := ⟨CONNECTED, 50000, [], 1, 0, 0, 0⟩

/-- The wire bytes of a server `PING` frame with messageId 1 and empty
payload. -/
def pingFrame : Bytes := [6, 0, 1, 0, 0]

/-- The wire bytes of a `HARDWARE` frame with messageId 1 whose payload is
the single field `'vw'` with no pin field after it. -/
def vwOnlyFrame : Bytes := [20, 0, 1, 0, 2, 118, 119]

/-- Event name `'connected'`. -/
def evConnectedName : String := "connected"

/-- Event name `'disconnected'`. -/
def evDisconnectedName : String := "disconnected"

/-- An exception text raised by a demonstration callback. -/
def boomMsg : String := "boom"

/-- The registry of a fresh `EventEmitter` (`self._cbks = {}`). -/
def emptyRegistry : Registry := fun _ => none

/-- A callback that raises. -/
def failingHandler : List String → Except String Unit := fun _ => Except.error boomMsg

/-- A callback that returns normally. -/
def okHandler : List String → Except String Unit := fun _ => Except.ok ()

/-- A registry with a raising `'connected'` callback registered and then a
well-behaved `'disconnected'` callback. -/
def demoRegistry : Registry :=
  onReg (onReg emptyRegistry evConnectedName failingHandler) evDisconnectedName okHandler

theorem splitNul_single (f : Bytes) (h : ∀ x ∈ f, x ≠ 0) : splitNul f = [f] := by
  induction f with
  | nil => rfl
  | cons x r ih =>
    cases x with
    | zero => exact absurd rfl (h 0 (by simp))
    | succ y =>
      have := ih (fun z hz => h z (by simp [hz]))
      simp [splitNul, this]

theorem splitNul_append_zero (f X : Bytes) (h : ∀ x ∈ f, x ≠ 0) :
    splitNul (f ++ 0 :: X) = f :: splitNul X := by
  induction f with
  | nil => simp [splitNul]
  | cons x r ih =>
    cases x with
    | zero => exact absurd rfl (h 0 (by simp))
    | succ y =>
      have := ih (fun z hz => h z (by simp [hz]))
      simp [splitNul, this]

theorem splitNul_joinNul (fs : List Bytes) (hne : fs ≠ [])
    (h : ∀ f ∈ fs, ∀ x ∈ f, x ≠ 0) : splitNul (joinNul fs) = fs := by
  induction fs with
  | nil => exact absurd rfl hne
  | cons f rest ih =>
    cases rest with
    | nil => simp [joinNul, splitNul_single f (h f (by simp))]
    | cons g r2 =>
      rw [show joinNul (f :: g :: r2) = f ++ 0 :: joinNul (g :: r2) from rfl,
          splitNul_append_zero f _ (h f (by simp)),
          ih (by simp) (fun f2 hf2 => h f2 (by simp [hf2]))]

/-- C2 (counterexample): the claim fails for the empty field sequence.
Encoding `(MSG_HW, 1, [])` produces an empty payload, and the parse in
`process()` splits the empty payload into the one-element list containing
the empty field (`b''.split(b'\x00') == [b'']`), so the original empty
field sequence is not reproduced. -/
theorem C2_roundtrip_counterexample :
    decodeFrame (sendBytes MSG_HW 1 []) = some ((MSG_HW, 1, [[]]), []) ∧
      ([[]] : List Bytes) ≠ [] := by
  constructor
  · rfl
  · simp

/-- C2 (amended): for every command other than `MSG_RSP` that fits in one
byte, every messageId in `[1, 0xFFFF]`, and every NONEMPTY sequence of
payload fields, none containing a NUL byte and jointly at most `0xFFFF`
payload bytes, feeding the `_send`-encoded frame through the header/payload
parse of `process()` reproduces exactly the original command, messageId and
field sequence, consuming the frame completely. -/
theorem C2_roundtrip (cmd mid : Nat) (fields : List Bytes)
    (hcmd : cmd ≠ MSG_RSP) (hcmd2 : cmd ≤ 0xFF)
    (hmid : 0 < mid) (hmid2 : mid ≤ 0xFFFF)
    (hlen : (joinNul fields).length ≤ 0xFFFF)
    (hne : fields ≠ [])
    (hnul : ∀ f ∈ fields, ∀ x ∈ f, x ≠ 0) :
    decodeFrame (sendBytes cmd mid fields) = some ((cmd, mid, fields), []) := by
  unfold sendBytes pack_BHH decodeFrame
  simp only [List.cons_append]
  rw [Nat.div_add_mod' mid 256, Nat.div_add_mod' (joinNul fields).length 256]
  simp [splitNul_joinNul fields hne hnul]

/-- C2 (witness): the amended round trip at the HARDWARE frame
`('vw', '5')` with messageId 1. -/
theorem C2_roundtrip_witness :
    MSG_HW ≠ MSG_RSP ∧ ([[118, 119], [53]] : List Bytes) ≠ [] ∧
      decodeFrame (sendBytes MSG_HW 1 [[118, 119], [53]]) =
        some ((MSG_HW, 1, [[118, 119], [53]]), []) :=
  ⟨by decide, by simp,
    C2_roundtrip MSG_HW 1 [[118, 119], [53]] (by decide) (by decide) (by decide)
      (by decide) (by decide) (by simp) (by decide)⟩

theorem idSeq_bounds (k : Nat) : 1 ≤ idSeq k ∧ idSeq k ≤ 0xFFFF := by
  induction k with
  | zero => simp [idSeq]
  | succ n ih => rw [idSeq]; unfold nextMsgId; split <;> omega

theorem idSeq_mod (k : Nat) : idSeq k = k % 0xFFFF + 1 := by
  induction k with
  | zero => rfl
  | succ n ih => rw [idSeq, ih]; unfold nextMsgId; split <;> omega

/-- C5: the message ids issued over successive `send()` calls within one
connection (`connect()` resets the counter to 1) are never 0, stay in
`[1, 0xFFFF]`, are strictly increasing modulo wraparound (each id is the
previous id plus one while below 0xFFFF), and after issuing 0xFFFF the
next issued id is 1. -/
theorem C5_msg_id_sequence (k : Nat) :
    idSeq k ≠ 0 ∧ 1 ≤ idSeq k ∧ idSeq k ≤ 0xFFFF ∧
      (idSeq k = 0xFFFF → idSeq (k + 1) = 1) ∧
      (idSeq k < 0xFFFF → idSeq (k + 1) = idSeq k + 1) := by
  obtain ⟨h1, h2⟩ := idSeq_bounds k
  refine ⟨by omega, h1, h2, fun h => ?_, fun h => ?_⟩
  · show nextMsgId (idSeq k) = 1
    unfold nextMsgId
    rw [if_neg (by omega)]
  · show nextMsgId (idSeq k) = idSeq k + 1
    unfold nextMsgId
    rw [if_pos h]

/-- C5 (witness): at the 65535-th issue the counter has reached 0xFFFF and
the next issued id wraps to 1. -/
theorem C5_msg_id_sequence_witness : idSeq 65535 = 1 ∧ idSeq 65534 ≠ 0 :=
  ⟨(C5_msg_id_sequence 65534).2.2.2.1 (by rw [idSeq_mod]),
   (C5_msg_id_sequence 65534).1⟩

theorem backoffStep_capped (j : Nat) :
    backoffStep (min (2 ^ j) 30) = min (2 ^ (j + 1)) 30 := by
  have hp : 2 ^ (j + 1) = 2 ^ j * 2 := pow_succ 2 j
  unfold backoffStep
  omega

theorem connectLoop_run (n j : Nat) :
    connectLoop (min (2 ^ j) 30) (List.replicate n false ++ [true]) =
      ((List.range n).map (fun k => min (2 ^ (j + k)) 30), 1, true) := by
  induction n generalizing j with
  | zero => simp [connectLoop]
  | succ m ih =>
    rw [List.replicate_succ, List.cons_append, connectLoop]
    simp only [Bool.false_eq_true, if_false, backoffStep_capped, ih (j + 1)]
    rw [List.range_succ_eq_map]
    simp [List.map_map, Function.comp_def, Nat.add_comm, Nat.add_assoc, Nat.add_left_comm]

/-- C9: over a run of `n` consecutive failed connection attempts followed
by a success, the sleep durations taken by `Blynk.connect` are exactly
`min (2^k) 30` for `k = 0, 1, ..., n-1` — i.e. 1, 2, 4, 8, 16, 30, 30, ...,
doubling from 1 and capped at 30 — and after the successful attempt the
backoff counter is reset to 1 (from any starting value `b`). -/
theorem C9_backoff_sequence (n b : Nat) (rest : List Bool) :
    connectLoop 1 (List.replicate n false ++ [true]) =
      ((List.range n).map (fun k => min (2 ^ k) 30), 1, true) ∧
    connectLoop b (true :: rest) = ([], 1, true) := by
  constructor
  · have h := connectLoop_run n 0
    simpa using h
  · simp [connectLoop]

/-- C8: `emit(name, args)` invokes the registered handler if one exists
(and the outcome is exactly the handler's outcome — a raising handler is
caught, never propagated, since `emit` is a total function into
`EmitOutcome`), has no effect when no handler is registered, and a handler
registered under one event name — even a raising one — leaves dispatch for
every other event name unchanged. -/
theorem C8_emit_isolated (cbks : Registry) (evt evt2 : String)
    (a a2 : List String) (f g : List String → Except String Unit) :
    (cbks evt = none → emit cbks evt a = .noHandler) ∧
    (cbks evt = some f →
      emit cbks evt a =
        match f a with
        | .ok _ => .handlerOk
        | .error e => .handlerCaught e) ∧
    (evt2 ≠ evt → emit (onReg cbks evt g) evt2 a2 = emit cbks evt2 a2) := by
  refine ⟨fun h => ?_, fun h => ?_, fun h => ?_⟩
  · simp [emit, h]
  · simp [emit, h]
  · simp [emit, onReg, h]

/-- C8 (witness): with a raising `'connected'` handler and a well-behaved
`'disconnected'` handler registered, emitting `'connected'` yields the
caught-exception outcome (no propagation), and registering the raising
handler did not disturb dispatch of `'disconnected'`, which still succeeds. -/
theorem C8_emit_isolated_witness :
    emit demoRegistry evConnectedName [] = EmitOutcome.handlerCaught boomMsg ∧
    emit (onReg demoRegistry evConnectedName failingHandler) evDisconnectedName [] =
      emit demoRegistry evDisconnectedName [] ∧
    emit demoRegistry evDisconnectedName [] = EmitOutcome.handlerOk := by
  have h2 := (C8_emit_isolated demoRegistry evConnectedName evDisconnectedName
    [] [] failingHandler failingHandler).2.1
    (by simp [demoRegistry, onReg, evConnectedName, evDisconnectedName, emptyRegistry])
  have h3 := (C8_emit_isolated demoRegistry evConnectedName evDisconnectedName
    [] [] failingHandler failingHandler).2.2 (by decide)
  have h4 := (C8_emit_isolated demoRegistry evDisconnectedName evConnectedName
    [] [] okHandler okHandler).2.1
    (by simp [demoRegistry, onReg, evDisconnectedName])
  exact ⟨h2, h3, h4⟩

theorem procLoop_nil (now : Int) (fuel : Nat) (st : PState)
    (sends : List SentMsg) (evs : List Ev) (h : st.bin = []) :
    procLoop now fuel st sends evs = ⟨st, sends, evs, none⟩ := by
  cases fuel <;> simp [procLoop, h]

theorem procLoop_mid0 (now : Int) (fuel : Nat) (st : PState)
    (sends : List SentMsg) (evs : List Ev) (c d e : Nat) (r : Bytes)
    (hbin : st.bin = c :: 0 :: 0 :: d :: e :: r) (hf : 0 < fuel) :
    procLoop now fuel st sends evs =
      ⟨{st with state := DISCONNECTED}, sends, evs ++ [.disconnected], none⟩ := by
  cases fuel with
  | zero => omega
  | succ n => simp [procLoop, hbin]

/-- C3: in state `Connecting` or `Connected`, when more than
`heartbeat + heartbeat // 2` (1.5×H) has elapsed since `lastRecv`, the next
`process()` call transitions to `Disconnected` and emits `'disconnected'`
exactly once, sending nothing, raising nothing, appending nothing to the
receive buffer and decoding or routing no buffered frame. -/
theorem C3_hard_timeout (st : PState) (now : Int) (data : Bytes)
    (hst : st.state = CONNECTING ∨ st.state = CONNECTED)
    (hto : st.heartbeat + st.heartbeat.fdiv 2 < now - st.lastRecv) :
    process st now data =
      ⟨{st with state := DISCONNECTED}, [], [.disconnected], none⟩ := by
  unfold process
  rw [if_pos hst, if_pos hto]

/-- C3 (witness): a connecting engine with heartbeat 50 s and no frame
received for 76 s disconnects on the next `process()` call, leaving its
buffer untouched. -/
theorem C3_hard_timeout_witness :
    (connState.state = CONNECTING ∨ connState.state = CONNECTED) ∧
      connState.heartbeat + connState.heartbeat.fdiv 2 < 76000 - connState.lastRecv ∧
      process connState 76000 pingFrame =
        ⟨{connState with state := DISCONNECTED}, [], [.disconnected], none⟩ :=
  ⟨Or.inl rfl, by decide,
   C3_hard_timeout connState 76000 pingFrame (Or.inl rfl) (by decide)⟩

/-- C7: a received frame whose header carries messageId 0 (second and third
buffered bytes both zero) makes `process()` call `disconnect()` — state
becomes `Disconnected` and `'disconnected'` is emitted — without raising
and without routing the frame (or anything after it) to the dispatcher,
whatever the command byte, length field and trailing bytes are. -/
theorem C7_zero_msg_id_disconnects (st : PState) (now : Int) (c l1 l2 : Nat)
    (r : Bytes)
    (hst : st.state = CONNECTING ∨ st.state = CONNECTED)
    (hto : ¬ st.heartbeat + st.heartbeat.fdiv 2 < now - st.lastRecv)
    (hping : ¬ (st.heartbeat.fdiv 10 < now - st.lastPing ∧
      (st.heartbeat < now - st.lastSend ∨ st.heartbeat < now - st.lastRecv)))
    (hbin : st.bin = []) :
    process st now (c :: 0 :: 0 :: l1 :: l2 :: r) =
      ⟨{st with state := DISCONNECTED, bin := c :: 0 :: 0 :: l1 :: l2 :: r}, [],
        [.disconnected], none⟩ := by
  unfold process
  rw [if_pos hst, if_neg hto]
  simp only [if_neg hping, hbin, List.nil_append]
  rw [if_neg (by simp : ¬(c :: 0 :: 0 :: l1 :: l2 :: r : Bytes) = [])]
  rw [procLoop_mid0 now _ _ _ _ c l1 l2 r rfl (by simp)]
  simp

/-- C7 (witness): a connected engine receiving the 5-byte header
`[99, 0, 0, 7, 7]` (messageId 0) disconnects cleanly. -/
theorem C7_zero_msg_id_disconnects_witness :
    (liveState.state = CONNECTING ∨ liveState.state = CONNECTED) ∧
      liveState.bin = [] ∧
      process liveState 0 [99, 0, 0, 7, 7] =
        ⟨{liveState with state := DISCONNECTED, bin := [99, 0, 0, 7, 7]}, [],
          [.disconnected], none⟩ :=
  ⟨Or.inr rfl, rfl,
   C7_zero_msg_id_disconnects liveState 0 99 7 7 [] (Or.inr rfl) (by decide)
     (by decide) rfl⟩

/-- C1 (code evidence): contrary to the specification, `process()` never
writes `lastRecv`.  Concretely: a connecting engine with `lastRecv = 0`
receives a complete `PING` frame at time 1000; the frame is fully decoded
(the buffer is drained), routed (the `MSG_RSP` reply is written) and no
exception is raised, yet `lastRecv` still holds 0, not the receipt time
1000. -/
theorem C1_lastRecv_never_updated :
    (process connState 1000 pingFrame).err = none ∧
      (process connState 1000 pingFrame).sends = [⟨MSG_RSP, 1, STA_SUCCESS, []⟩] ∧
      (process connState 1000 pingFrame).st.bin = [] ∧
      (process connState 1000 pingFrame).st.lastRecv = 0 ∧
      (process connState 1000 pingFrame).st.lastRecv ≠ 1000 := by
  refine ⟨rfl, rfl, rfl, rfl, by decide⟩

/-- C10: `process()` is not total over well-framed inputs: a connected
engine receiving a complete HARDWARE (command 20) frame whose payload splits
to the single field `'vw'` raises an uncaught `IndexError` (from
`args[1]`), which propagates to the caller — the state is not set to
`Disconnected` and no event is emitted. -/
theorem C10_vw_index_error :
    (process liveState 0 vwOnlyFrame).err = some PErr.indexError ∧
      (process liveState 0 vwOnlyFrame).evs = [] ∧
      (process liveState 0 vwOnlyFrame).st.state = CONNECTED := by
  refine ⟨rfl, rfl, rfl⟩


theorem routeFrame_eq_facts (now : Int) (st : PState) (cmd mid dlen : Nat)
    (args : List Bytes) (st1 : PState) (s1 : List SentMsg) (e1 : List Ev)
    (er : Option PErr)
    (h : routeFrame now st cmd mid dlen args = (st1, s1, e1, er)) :
    st1.lastPing = st.lastPing ∧ st1.bin = st.bin ∧
      List.countP isPingMsg s1 = 0 := by
  unfold routeFrame at h
  repeat' split at h
  all_goals
    simp only [Prod.mk.injEq] at h
  all_goals
    obtain ⟨rfl, rfl, rfl, rfl⟩ := h
  all_goals
    simp [isPingMsg, MSG_RSP, MSG_PING]

theorem procLoop_no_ping (now : Int) :
    ∀ (fuel : Nat) (st : PState) (sends : List SentMsg) (evs : List Ev),
      (procLoop now fuel st sends evs).st.lastPing = st.lastPing ∧
      List.countP isPingMsg (procLoop now fuel st sends evs).sends =
        List.countP isPingMsg sends := by
  intro fuel
  induction fuel with
  | zero => intro st sends evs; simp [procLoop]
  | succ n ih =>
    intro st sends evs
    rw [procLoop]
    split
    · split
      · simp
      · split
        · simp
        · split
          · split
            next st1 s1 e1 hr =>
              obtain ⟨hp, _, hc⟩ := routeFrame_eq_facts _ _ _ _ _ _ _ _ _ _ hr
              obtain ⟨ih1, ih2⟩ := ih st1 (sends ++ s1) (evs ++ e1)
              refine ⟨?_, ?_⟩
              · rw [ih1]; simpa using hp
              · rw [ih2, List.countP_append, hc]; omega
            next st1 s1 e1 er hr =>
              obtain ⟨hp, _, hc⟩ := routeFrame_eq_facts _ _ _ _ _ _ _ _ _ _ hr
              exact ⟨by simpa using hp, by simp [List.countP_append, hc]⟩
          · simp
    · simp

theorem procLoop_lastPing (now : Int) (fuel : Nat) (st : PState)
    (sends : List SentMsg) (evs : List Ev) :
    (procLoop now fuel st sends evs).st.lastPing = st.lastPing :=
  (procLoop_no_ping now fuel st sends evs).1

theorem procLoop_countPing (now : Int) (fuel : Nat) (st : PState)
    (sends : List SentMsg) (evs : List Ev) :
    List.countP isPingMsg (procLoop now fuel st sends evs).sends =
      List.countP isPingMsg sends :=
  (procLoop_no_ping now fuel st sends evs).2

/-- C4: in state `Connecting` or `Connected` with the hard timeout not
fired, if more than `heartbeat // 10` has elapsed since `lastPing` and
(more than `heartbeat` since `lastSend` or more than `heartbeat` since
`lastRecv`), the `process()` call sends exactly one `PING` frame and sets
`lastPing` to the current time; if that conjunction does not hold, no ping
frame is sent and `lastPing` is unchanged.  (Frame routing can write only
`MSG_RSP` replies, never a ping, so the count is over the whole call.) -/
theorem C4_ping_exactly_once (st : PState) (now : Int) (data : Bytes)
    (hst : st.state = CONNECTING ∨ st.state = CONNECTED)
    (hto : ¬ st.heartbeat + st.heartbeat.fdiv 2 < now - st.lastRecv)
    (hmid : 1 ≤ st.msg_id ∧ st.msg_id ≤ 0xFFFF) :
    (st.heartbeat.fdiv 10 < now - st.lastPing ∧
        (st.heartbeat < now - st.lastSend ∨ st.heartbeat < now - st.lastRecv) →
      List.countP isPingMsg (process st now data).sends = 1 ∧
        (process st now data).st.lastPing = now) ∧
    (¬ (st.heartbeat.fdiv 10 < now - st.lastPing ∧
        (st.heartbeat < now - st.lastSend ∨ st.heartbeat < now - st.lastRecv)) →
      List.countP isPingMsg (process st now data).sends = 0 ∧
        (process st now data).st.lastPing = st.lastPing) := by
  constructor
  · intro hc
    unfold process
    rw [if_pos hst, if_neg hto]
    simp only [if_pos hc]
    rw [procLoop_countPing, procLoop_lastPing]
    constructor
    · simp [isPingMsg, MSG_PING]
    · split <;> rfl
  · intro hc
    unfold process
    rw [if_pos hst, if_neg hto]
    simp only [if_neg hc]
    rw [procLoop_countPing, procLoop_lastPing]
    constructor
    · simp
    · split <;> rfl

/-- C4 (witness): a connected engine idle for 60 s on a 50 s heartbeat
(ping idle 60 s > 5 s, send idle 60 s > 50 s) sends exactly one ping on the
next `process()` call and stamps `lastPing`. -/
theorem C4_ping_exactly_once_witness :
    (liveState.state = CONNECTING ∨ liveState.state = CONNECTED) ∧
      List.countP isPingMsg (process liveState 60000 []).sends = 1 ∧
      (process liveState 60000 []).st.lastPing = 60000 :=
  ⟨Or.inr rfl,
   (C4_ping_exactly_once liveState 60000 [] (Or.inr rfl) (by decide)
     (by decide)).1 (by decide)⟩

theorem procLoop_step (now : Int) (fuel : Nat) (st : PState)
    (sends : List SentMsg) (evs : List Ev) (c a b d e : Nat) (rest : Bytes)
    (hbin : st.bin = c :: a :: b :: d :: e :: rest)
    (hmid : ¬ a * 256 + b = 0)
    (hlen : ¬ rest.length < d * 256 + e)
    (hutf : (splitNul (rest.take (d * 256 + e))).all utf8Valid = true) :
    procLoop now (fuel + 1) st sends evs =
      (match routeFrame now {st with bin := rest.drop (d * 256 + e)} c
          (a * 256 + b) (d * 256 + e) (splitNul (rest.take (d * 256 + e))) with
      | (st1, s1, e1, none) => procLoop now fuel st1 (sends ++ s1) (evs ++ e1)
      | (st1, s1, e1, some er) => ⟨st1, sends ++ s1, evs ++ e1, some er⟩) := by
  conv_lhs => rw [procLoop]
  rw [hbin]
  simp only [decodeFrame, if_neg hmid, if_neg hlen, hutf, if_true]

theorem process_single_rsp (st : PState) (now : Int) (mid dlen : Nat)
    (payload : Bytes)
    (hst : st.state = CONNECTING)
    (hto : ¬ st.heartbeat + st.heartbeat.fdiv 2 < now - st.lastRecv)
    (hping : ¬ (st.heartbeat.fdiv 10 < now - st.lastPing ∧
      (st.heartbeat < now - st.lastSend ∨ st.heartbeat < now - st.lastRecv)))
    (hbin : st.bin = [])
    (hmid : ¬ mid = 0)
    (hpl : payload.length = dlen)
    (hutf : (splitNul payload).all utf8Valid = true) :
    process st now (pack_BHH MSG_RSP mid dlen ++ payload) =
      if dlen = STA_SUCCESS then
        ⟨{st with state := CONNECTED, bin := []}, [], [.connected], none⟩
      else if dlen = STA_INVALID_TOKEN then
        ⟨{st with state := DISCONNECTED, bin := []}, [],
          [.invalid_auth, .disconnected], none⟩
      else ⟨{st with bin := []}, [], [], none⟩ := by
  unfold process
  rw [if_pos (Or.inl hst), if_neg hto]
  simp only [if_neg hping, hbin, pack_BHH, List.cons_append, List.nil_append]
  rw [if_neg (List.cons_ne_nil _ _)]
  simp only [List.length_cons, hpl]
  rw [show dlen + 1 + 1 + 1 + 1 + 1 = (dlen + 4) + 1 from rfl]
  rw [procLoop_step now (dlen + 4) _ _ _ _ _ _ _ _ _ rfl
    (by rw [Nat.div_add_mod']; exact hmid)
    (by rw [Nat.div_add_mod']; omega)
    (by rw [Nat.div_add_mod', ← hpl, List.take_length]; exact hutf)]
  rw [Nat.div_add_mod' mid 256, Nat.div_add_mod' dlen 256]
  rw [← hpl, List.take_length, List.drop_length, hpl]
  simp only [routeFrame]
  rw [if_neg (by decide : ¬ MSG_RSP = MSG_PING),
      if_neg (by decide : ¬ MSG_RSP = MSG_HW),
      if_neg (by decide : ¬ MSG_RSP = MSG_INTERNAL),
      if_neg (by decide : ¬ MSG_RSP = MSG_REDIRECT),
      if_pos ⟨trivial, hst⟩]
  split_ifs with h1 h2 <;> simp [procLoop_nil]

/-- C6: a `RESPONSE` frame decoded while the engine is `Connecting`
(buffered as header plus `dlen` payload bytes, messageId nonzero, hard
timeout and ping condition not firing): if the status carried in the length
field is 200 the state becomes `Connected` and `'connected'` is emitted
exactly once; if the status is 9, `'invalid_auth'` is emitted and then the
state becomes `Disconnected` (with the `'disconnected'` emit of
`disconnect()`); for any other status the state is unchanged and no event
is emitted. -/
theorem C6_response_while_connecting (st : PState) (now : Int)
    (mid dlen : Nat) (payload : Bytes)
    (hst : st.state = CONNECTING)
    (hto : ¬ st.heartbeat + st.heartbeat.fdiv 2 < now - st.lastRecv)
    (hping : ¬ (st.heartbeat.fdiv 10 < now - st.lastPing ∧
      (st.heartbeat < now - st.lastSend ∨ st.heartbeat < now - st.lastRecv)))
    (hbin : st.bin = [])
    (hmid : ¬ mid = 0) (hmid2 : mid ≤ 0xFFFF) (hdl : dlen ≤ 0xFFFF)
    (hpl : payload.length = dlen)
    (hutf : (splitNul payload).all utf8Valid = true) :
    (dlen = STA_SUCCESS →
      process st now (pack_BHH MSG_RSP mid dlen ++ payload) =
        ⟨{st with state := CONNECTED, bin := []}, [], [.connected], none⟩) ∧
    (dlen = STA_INVALID_TOKEN →
      process st now (pack_BHH MSG_RSP mid dlen ++ payload) =
        ⟨{st with state := DISCONNECTED, bin := []}, [],
          [.invalid_auth, .disconnected], none⟩) ∧
    (¬ dlen = STA_SUCCESS → ¬ dlen = STA_INVALID_TOKEN →
      process st now (pack_BHH MSG_RSP mid dlen ++ payload) =
        ⟨{st with bin := []}, [], [], none⟩) := by
  have key := process_single_rsp st now mid dlen payload hst hto hping hbin hmid hpl hutf
  refine ⟨fun h => ?_, fun h => ?_, fun h h2 => ?_⟩
  · rw [key, if_pos h]
  · rw [key, if_neg (by rw [h]; decide), if_pos h]
  · rw [key, if_neg h, if_neg h2]

set_option maxRecDepth 4000 in
/-- C6 (witness): a connecting engine receiving a `RESPONSE` header with
length field 200 followed by 200 payload bytes becomes `Connected` and
emits `'connected'` exactly once. -/
theorem C6_response_while_connecting_witness :
    connState.state = CONNECTING ∧
      process connState 0 (pack_BHH MSG_RSP 1 200 ++ List.replicate 200 0) =
        ⟨{connState with state := CONNECTED, bin := []}, [], [.connected], none⟩ :=
  ⟨rfl,
   (C6_response_while_connecting connState 0 1 200 (List.replicate 200 0) rfl
     (by decide) (by decide) rfl (by decide) (by decide) (by decide)
     (by decide) (by decide)).1 rfl⟩
